import Mathlib

/-!
# Verification of the EventSub core of SCdF/twitch-tray

Shallow embedding of the real-time event subsystem:
* `internal/eventsub/client.go` — WebSocket client: connect/retry with
  exponential backoff, message routing, session state, reconnect handling,
  keepalive monitoring, close.
* the subscription manager (`subscriptions.go`) — HTTP CRUD over EventSub
  subscriptions keyed by `type:broadcasterID`.

Durations are modelled in whole seconds as `Nat`; the Go map
`map[string]string` is modelled as an association list (the manager only
inserts a key after checking it is absent, so the list never holds duplicate
keys when the operations are used as in the source); HTTP traffic is modelled
by an oracle stream of responses consumed in order, together with a log of the
externally visible actions the manager performs.
-/

namespace TwitchTray

/-! ## Reconnect backoff (client.go, `connectWithRetry`, lines 153–189)

`connectWithRetry` keeps a local `delay` initialised to `reconnectBaseDelay`
(line 154).  Each loop iteration dials; on success it returns `nil`
(lines 170–173); on failure it sleeps `delay` (line 180) and then doubles it,
capping at `reconnectMaxDelay` (lines 184–187).  A fresh call of
`connectWithRetry` — made synchronously from `Connect` (line 150) or spawned
by `handleDisconnect` after a teardown (line 344) — starts again from the
base delay.
-/

/-- `reconnectBaseDelay = 1 * time.Second` (client.go line 16), in seconds. -/
def reconnectBaseDelay : Nat := 1

/-- `reconnectMaxDelay = 30 * time.Second` (client.go line 17), in seconds. -/
def reconnectMaxDelay : Nat := 30

/-- One backoff update: `delay *= 2; if delay > reconnectMaxDelay { delay =
reconnectMaxDelay }` (client.go lines 184–187). -/
def nextDelay (d : Nat) : Nat := min (d * 2) reconnectMaxDelay

/-- The stream of backoff delays slept, given the stream of dial outcomes
(`true` = dial succeeded).  A failed dial sleeps the current delay and doubles
it (lines 175–187); a successful dial ends the current `connectWithRetry`
call (line 172), and the next call — spawned by `handleDisconnect` on the
next teardown (line 344) — starts from `reconnectBaseDelay` again
(line 154). -/
def connectWithRetryDelays (d : Nat) : List Bool → List Nat
  | [] => []
  | false :: rest => d :: connectWithRetryDelays (nextDelay d) rest
  | true :: rest => connectWithRetryDelays reconnectBaseDelay rest

/-! ## Message routing and session state (client.go)

The client state the claims touch: `sessionID` (written only by
`handleWelcome`, line 278), `reconnectURL` (written only by
`handleReconnect`, line 316), `keepaliveTimeout` (line 279) and the
connection handle (`conn`, nil-ed by `handleDisconnect`, line 339).

`handleWelcome` stores `time.Duration(float64(secs)*1.5) * time.Second`;
for natural `secs` this equals `secs * 3 / 2` seconds (float64 is exact
here and the Duration conversion truncates).
-/

/-- The `Session` object carried by welcome / reconnect frames (client.go
lines 53–59); `reconnect_url` is `""` when absent (`omitempty`). -/
structure SessionMsg where
  id : String
  keepaliveTimeoutSeconds : Nat
  reconnectURL : String
deriving DecidableEq

/-- The mutable client fields relevant to session and reconnect handling
(client.go lines 94–113). -/
structure Client where
  sessionID : String
  keepaliveTimeout : Nat
  reconnectURL : String
  connOpen : Bool
deriving DecidableEq

/-- `NewClient` leaves all of these fields at their zero values
(client.go lines 116–121). -/
def newClient : Client :=
  { sessionID := "", keepaliveTimeout := 0, reconnectURL := "", connOpen := false }

/-- `GetSessionID` (client.go lines 138–142). -/
def GetSessionID (c : Client) : String := c.sessionID

/-- `eventSubURL` (client.go line 15). -/
def eventSubURL : String := "wss://eventsub.wss.twitch.tv/ws"

/-- The URL a `connectWithRetry` iteration dials: `url := eventSubURL; if
c.reconnectURL != "" { url = c.reconnectURL }` (client.go lines 163–168). -/
def dialTarget (c : Client) : String :=
  if c.reconnectURL ≠ "" then c.reconnectURL else eventSubURL

/-- `handleDisconnect` (client.go lines 335–345): closes and nils the
connection, then spawns `connectWithRetry`.  It touches neither `sessionID`
nor `reconnectURL`. -/
def handleDisconnect (c : Client) : Client := { c with connOpen := false }

/-- `handleWelcome` (client.go lines 270–289): stores the session id and the
keepalive timeout with the 1.5 grace factor. -/
def handleWelcome (c : Client) (s : SessionMsg) : Client :=
  { c with sessionID := s.id, keepaliveTimeout := s.keepaliveTimeoutSeconds * 3 / 2 }

/-- `handleReconnect` (client.go lines 308–323): records the new target URL,
then tears the connection down via `handleDisconnect`. -/
def handleReconnect (c : Client) (s : SessionMsg) : Client :=
  handleDisconnect { c with reconnectURL := s.reconnectURL }

/-- The events that drive the client state the claims are about: the routed
frames (`handleMessage`, lines 256–267), the two failure teardowns (read
error, line 237; keepalive timeout, line 365), and one dial iteration of
`connectWithRetry` (lines 163–173). -/
inductive ClientEvent where
  | welcome (s : SessionMsg)
  | reconnectFrame (s : SessionMsg)
  | readError
  | keepaliveTimeout
  | dial (success : Bool)
deriving DecidableEq

/-- One step of the client under an event, per the handlers above. -/
def clientStep (c : Client) : ClientEvent → Client
  | .welcome s => handleWelcome c s
  | .reconnectFrame s => handleReconnect c s
  | .readError => handleDisconnect c
  | .keepaliveTimeout => handleDisconnect c
  | .dial success => if success then { c with connOpen := true } else c

/-- Run a sequence of events. -/
def runClient (c : Client) : List ClientEvent → Client
  | [] => c
  | e :: es => runClient (clientStep c e) es

/-- The URLs dialed along a run: each `dial` event dials `dialTarget` of the
state at that moment (client.go lines 163–170). -/
def dialTargets (c : Client) : List ClientEvent → List String
  | [] => []
  | .dial s :: es => dialTarget c :: dialTargets (clientStep c (.dial s)) es
  | .welcome s :: es => dialTargets (clientStep c (.welcome s)) es
  | .reconnectFrame s :: es => dialTargets (clientStep c (.reconnectFrame s)) es
  | .readError :: es => dialTargets (clientStep c .readError) es
  | .keepaliveTimeout :: es => dialTargets (clientStep c .keepaliveTimeout) es

/-- `true` exactly on `session_welcome` events. -/
def isWelcome : ClientEvent → Bool
  | .welcome _ => true
  | _ => false

/-- `true` exactly on `session_reconnect` events. -/
def isReconnectFrame : ClientEvent → Bool
  | .reconnectFrame _ => true
  | _ => false

/-! ## Subscription manager (subscriptions.go)

`SubscriptionManager` keeps `subscriptions map[string]string` from
`type:broadcasterID` keys to subscription ids.  Its HTTP calls are modelled
by an oracle: a stream of `HttpResponse`s consumed one per request, plus a
log of the externally visible actions performed (HTTP requests and the
warning prints of `SubscribeToChannels`).  The action vocabulary also has a
`reconnect` constructor so that "the manager never triggers a transport
reconnect" is expressible; no manager operation emits it (the manager holds
no reference to the transport). -/

/-- What the manager observes of one HTTP round trip: a transport error from
`httpClient.Do`, or a response with its status code, its raw body, and — for
create responses — the decoded `data` array's subscription ids (`none`
models a JSON decode failure of a 202 body). -/
inductive HttpResponse where
  | netError (msg : String)
  | status (code : Nat) (body : String) (dataIDs : Option (List String))
deriving DecidableEq

/-- Externally visible actions of the subscription manager. -/
inductive Action where
  | httpCreate (subType broadcasterID sessionID : String)
  | httpDelete (subscriptionID : String)
  | warn (broadcasterID msg : String)
  | reconnect
deriving DecidableEq

/-- The HTTP oracle and the action log. -/
structure World where
  responses : List HttpResponse
  log : List Action
deriving DecidableEq

/-- Perform one HTTP request: log it and consume the next oracle response
(an exhausted oracle behaves as a transport error). -/
def doRequest (w : World) (a : Action) : HttpResponse × World :=
  match w.responses with
  | [] => (.netError "no response", { w with log := w.log ++ [a] })
  | r :: rest => (r, { responses := rest, log := w.log ++ [a] })

/-- `SubscriptionManager` (subscriptions.go lines 49–56); the Go map is an
association list here. -/
structure SubscriptionManager where
  clientID : String
  accessToken : String
  sessionID : String
  subscriptions : List (String × String)
deriving DecidableEq

/-- `NewSubscriptionManager` (subscriptions.go lines 59–66). -/
def NewSubscriptionManager (clientID accessToken : String) : SubscriptionManager :=
  { clientID := clientID, accessToken := accessToken, sessionID := ""
    subscriptions := [] }

/-- `SetSessionID` (subscriptions.go lines 69–71). -/
def SetSessionID (m : SubscriptionManager) (sessionID : String) : SubscriptionManager :=
  { m with sessionID := sessionID }

/-- `key := fmt.Sprintf("%s:%s", subType, broadcasterID)` (subscriptions.go
line 115). -/
def subKey (subType broadcasterID : String) : String :=
  subType ++ ":" ++ broadcasterID

/-- `createSubscription` (subscriptions.go lines 114–174).  If the key is
already tracked, return `nil` without any request (lines 118–120).
Otherwise POST the create request and branch on the response: transport
error → error (lines 148–151); 409 → `nil`, nothing tracked (lines 154–157);
other non-202 → error with status and body (lines 159–162); 202 → decode the
body (decode failure → error, lines 164–167) and track `data[0].id` only when
the `data` array is non-empty (lines 169–171). -/
def createSubscription (m : SubscriptionManager) (w : World)
    (subType broadcasterID : String) :
    Except String Unit × SubscriptionManager × World :=
  match m.subscriptions.lookup (subKey subType broadcasterID) with
  | some _ => (.ok (), m, w)
  | none =>
    match doRequest w (.httpCreate subType broadcasterID m.sessionID) with
    | (.netError msg, w1) => (.error msg, m, w1)
    | (.status code body dataIDs, w1) =>
      if code = 409 then (.ok (), m, w1)
      else if code ≠ 202 then
        (.error ("subscription failed (" ++ toString code ++ "): " ++ body),
         m, w1)
      else
        match dataIDs with
        | none => (.error "decode error", m, w1)
        | some [] => (.ok (), m, w1)
        | some (id :: _) =>
          (.ok (), { m with subscriptions :=
              m.subscriptions ++ [(subKey subType broadcasterID, id)] }, w1)

/-- `SubscribeToChannel` (subscriptions.go lines 74–95): reject when no
session id is set (lines 75–77), else create the three subscriptions in
order, stopping at the first failure and wrapping its error. -/
def SubscribeToChannel (m : SubscriptionManager) (w : World)
    (broadcasterID : String) :
    Except String Unit × SubscriptionManager × World :=
  if m.sessionID = "" then (.error "session ID not set", m, w)
  else
    match createSubscription m w "stream.online" broadcasterID with
    | (.error e, m1, w1) =>
      (.error ("failed to subscribe to stream.online: " ++ e), m1, w1)
    | (.ok _, m1, w1) =>
      match createSubscription m1 w1 "stream.offline" broadcasterID with
      | (.error e, m2, w2) =>
        (.error ("failed to subscribe to stream.offline: " ++ e), m2, w2)
      | (.ok _, m2, w2) =>
        match createSubscription m2 w2 "channel.update" broadcasterID with
        | (.error e, m3, w3) =>
          (.error ("failed to subscribe to channel.update: " ++ e), m3, w3)
        | (.ok _, m3, w3) => (.ok (), m3, w3)

/-- `SubscribeToChannels` (subscriptions.go lines 98–112): iterate the ids;
on a per-channel failure print a warning and continue; return `nil`.  (The
`ctx.Done()` early return, lines 100–104, concerns cancellation and is not
exercised by any claim; cancellation is not modelled here.) -/
def SubscribeToChannels (m : SubscriptionManager) (w : World) :
    List String → Except String Unit × SubscriptionManager × World
  | [] => (.ok (), m, w)
  | id :: rest =>
    match SubscribeToChannel m w id with
    | (.error e, m1, w1) =>
      SubscribeToChannels m1
        { w1 with log := w1.log ++
            [.warn id ("failed to subscribe to channel " ++ id ++ ": " ++ e)] } rest
    | (.ok _, m1, w1) => SubscribeToChannels m1 w1 rest

/-- `DeleteSubscription` (subscriptions.go lines 177–197): DELETE by id;
204 and 404 both count as success, anything else is an error. -/
def DeleteSubscription (m : SubscriptionManager) (w : World)
    (subscriptionID : String) : Except String Unit × World :=
  let rw := doRequest w (.httpDelete subscriptionID)
  match rw.1 with
  | .netError msg => (.error msg, rw.2)
  | .status code _ _ =>
    if code = 204 ∨ code = 404 then (.ok (), rw.2)
    else (.error ("delete subscription failed: " ++ toString code), rw.2)

/-- The loop body of `ClearSubscriptions` (subscriptions.go lines 201–204):
for each tracked `(key, id)` of the snapshot being ranged over, best-effort
delete the remote subscription (result discarded, line 202) and remove the
key from the map (line 203). -/
def clearLoop : List (String × String) → SubscriptionManager → World →
    SubscriptionManager × World
  | [], m, w => (m, w)
  | (key, id) :: rest, m, w =>
    let dw := DeleteSubscription m w id
    clearLoop rest
      { m with subscriptions := m.subscriptions.filter (fun p => p.1 ≠ key) } dw.2

/-- `ClearSubscriptions` (subscriptions.go lines 200–205): iterate all
tracked registrations; the function returns no error (its Go signature has
no return value). -/
def ClearSubscriptions (m : SubscriptionManager) (w : World) :
    SubscriptionManager × World :=
  clearLoop m.subscriptions m w

/-! ## Event fan-out (client.go, `handleNotification`, lines 291–306)

`handleNotification` copies the handler slice under the read lock and then
invokes each handler in order with the subscription type and raw event.
There is no `recover` anywhere in the package: a handler that panics unwinds
the loop — later handlers are not called — and the panic propagates out of
`readMessages`, killing the reading goroutine (and, unrecovered, the
process).  A handler's behaviour is modelled as whether it panics. -/

/-- Behaviour of one registered event handler on a given notification. -/
inductive HandlerBehavior where
  | ok
  | panics
deriving DecidableEq

/-- Run the dispatch loop from index `i`: returns the indices of the handlers
that were invoked and whether the read loop crashed (a panic unwinds, so
dispatch stops at the first panicking handler). -/
def dispatchFrom (i : Nat) : List HandlerBehavior → List Nat × Bool
  | [] => ([], false)
  | .ok :: rest =>
    let r := dispatchFrom (i + 1) rest
    (i :: r.1, r.2)
  | .panics :: _ => ([i], true)

/-- `handleNotification`'s handler loop (client.go lines 303–305). -/
def handleNotification (handlers : List HandlerBehavior) : List Nat × Bool :=
  dispatchFrom 0 handlers

/-! ## `Close` versus the reconnect goroutine (client.go)

Interleaving model of shutdown.  `Close` (lines 372–390) cancels the
context, closes the connection and then calls `c.wg.Wait()`.  The WaitGroup
counts only the reader and monitor goroutines: `wg.Add(1)` appears solely in
`connect` (lines 203 and 207).  The retry goroutine spawned by
`handleDisconnect` (`go c.connectWithRetry()`, line 344) is *not* registered
with the WaitGroup.

Tasks and their atomic program points:
* the retry goroutine: `checkCtx` is the `select`/`default` on `ctx.Done()`
  at the top of the loop (lines 157–161); `dialStep` is picking the URL and
  dialing (lines 163–173), which on success runs `connect` — `wg.Add(1)`
  twice, spawning reader and monitor — and returns; on failure it proceeds
  to `backoffWait`, the `select` on `ctx.Done()` / `time.After(delay)`
  (lines 177–181), which on cancellation returns and otherwise loops;
* the leftover keepalive monitor of the torn-down connection, which exits on
  `ctx.Done()` (lines 354–356), running its deferred `wg.Done()`;
* `Close`: `closeCancel` is `c.cancel()` (line 376), `closeWait` is
  `c.wg.Wait()` returning — enabled only once the counter is zero — after
  which `Close` returns (lines 388–389).

No lock is held across these points in the source, so they interleave
freely. -/

/-- Program counter of the retry goroutine inside `connectWithRetry`. -/
inductive RetryPC where
  | checkCtx
  | dialStep
  | backoffWait
  | exited
deriving DecidableEq

/-- Shared state of the shutdown interleaving. -/
structure ConcState where
  ctxCancelled : Bool
  wgCount : Nat
  retryPC : RetryPC
  monitorRunning : Bool
  closeReturned : Bool
  opensAfterClose : Nat
deriving DecidableEq

/-- A scheduled atomic action of one of the three tasks. -/
inductive ConcAct where
  | retryStep (dialOK : Bool)
  | monitorStep
  | closeCancel
  | closeWait
deriving DecidableEq

/-- One atomic step of the interleaving, as justified point by point in the
section comment above.  `opensAfterClose` counts connections opened by a
dial that completes after `Close` has already returned. -/
def concStep (s : ConcState) : ConcAct → ConcState
  | .retryStep dialOK =>
    match s.retryPC with
    | .checkCtx =>
      if s.ctxCancelled then { s with retryPC := .exited }
      else { s with retryPC := .dialStep }
    | .dialStep =>
      if dialOK then
        { s with retryPC := .exited, wgCount := s.wgCount + 2,
                 opensAfterClose :=
                   s.opensAfterClose + (if s.closeReturned then 1 else 0) }
      else { s with retryPC := .backoffWait }
    | .backoffWait =>
      if s.ctxCancelled then { s with retryPC := .exited }
      else { s with retryPC := .checkCtx }
    | .exited => s
  | .monitorStep =>
    if s.monitorRunning ∧ s.ctxCancelled then
      { s with monitorRunning := false, wgCount := s.wgCount - 1 }
    else s
  | .closeCancel => { s with ctxCancelled := true }
  | .closeWait =>
    if s.wgCount = 0 ∧ s.ctxCancelled ∧ ¬ s.closeReturned then
      { s with closeReturned := true }
    else s

/-- Run a schedule of atomic actions. -/
def runConc (s : ConcState) (acts : List ConcAct) : ConcState :=
  acts.foldl concStep s

/-- The state just after a read error tore down a connection: `readMessages`
has run `handleDisconnect`, spawned the retry goroutine (at the top of its
loop) and exited — its deferred `wg.Done()` has run — while the monitor
goroutine of the torn-down connection is still registered (`wgCount = 1`)
and the context is not yet cancelled. -/
def afterReadError : ConcState :=
  { ctxCancelled := false, wgCount := 1, retryPC := .checkCtx,
    monitorRunning := true, closeReturned := false, opensAfterClose := 0 }

/-! ## Helper lemmas -/

/-- Every event other than a welcome frame leaves `sessionID` unchanged:
only `handleWelcome` writes it (client.go line 278). -/
lemma clientStep_sessionID (c : Client) (e : ClientEvent)
    (h : isWelcome e = false) : (clientStep c e).sessionID = c.sessionID := by
  cases e with
  | welcome s => simp [isWelcome] at h
  | reconnectFrame s => rfl
  | readError => rfl
  | keepaliveTimeout => rfl
  | dial success => cases success <;> rfl

/-- Every event other than a reconnect frame leaves `reconnectURL`
unchanged: only `handleReconnect` writes it (client.go line 316); in
particular neither a welcome nor `handleDisconnect` ever clears it. -/
lemma clientStep_reconnectURL (c : Client) (e : ClientEvent)
    (h : isReconnectFrame e = false) :
    (clientStep c e).reconnectURL = c.reconnectURL := by
  cases e with
  | welcome s => rfl
  | reconnectFrame s => simp [isReconnectFrame] at h
  | readError => rfl
  | keepaliveTimeout => rfl
  | dial success => cases success <;> rfl

/-- Along a run with no reconnect frame, `reconnectURL` is constant. -/
lemma runClient_reconnectURL (c : Client) (es : List ClientEvent)
    (h : ∀ e ∈ es, isReconnectFrame e = false) :
    (runClient c es).reconnectURL = c.reconnectURL := by
  induction es generalizing c with
  | nil => rfl
  | cons e es ih =>
    have h1 : isReconnectFrame e = false := h e (List.mem_cons_self _ _)
    have h2 : ∀ e' ∈ es, isReconnectFrame e' = false :=
      fun e' he' => h e' (List.mem_cons_of_mem _ he')
    show (runClient (clientStep c e) es).reconnectURL = _
    rw [ih (clientStep c e) h2, clientStep_reconnectURL c e h1]

/-- Along a run with no reconnect frame, every dial targets the URL
determined by the starting state. -/
lemma dialTargets_const (c : Client) (es : List ClientEvent)
    (h : ∀ e ∈ es, isReconnectFrame e = false) :
    ∀ t ∈ dialTargets c es, t = dialTarget c := by
  induction es generalizing c with
  | nil => intro t ht; simp [dialTargets] at ht
  | cons e es ih =>
    have h1 : isReconnectFrame e = false := h e (List.mem_cons_self _ _)
    have h2 : ∀ e' ∈ es, isReconnectFrame e' = false :=
      fun e' he' => h e' (List.mem_cons_of_mem _ he')
    have hnext : dialTarget (clientStep c e) = dialTarget c := by
      unfold dialTarget
      rw [clientStep_reconnectURL c e h1]
    intro t ht
    cases e with
    | welcome s => exact hnext ▸ ih (clientStep c (.welcome s)) h2 t ht
    | reconnectFrame s => simp [isReconnectFrame] at h1
    | readError => exact hnext ▸ ih (clientStep c .readError) h2 t ht
    | keepaliveTimeout => exact hnext ▸ ih (clientStep c .keepaliveTimeout) h2 t ht
    | dial success =>
      rcases List.mem_cons.mp ht with rfl | ht'
      · rfl
      · exact hnext ▸ ih (clientStep c (.dial success)) h2 t ht'

/-! ## Claims C1 and C2 -/

/-- C1, counterexample: after a welcome establishing session `sess-1`, a
read-error teardown (`handleDisconnect`) does *not* invalidate the session
id — a read between the teardown and the next welcome observes `sess-1`,
not "no session".  The claim that every such read observes an empty id is
therefore false. -/
theorem teardown_observes_stale_session :
    GetSessionID (runClient newClient
        [.welcome ⟨"sess-1", 10, ""⟩, .readError]) = "sess-1" ∧
    GetSessionID (runClient newClient
        [.welcome ⟨"sess-1", 10, ""⟩, .readError]) ≠ "" := by
  decide

/-- C1, amended: transitions that tear down a connection (read error,
heartbeat timeout, server-requested migration) do not invalidate the
session state: `handleDisconnect` only closes the connection, so every read
of the session id between the teardown and the next `session_welcome` frame
observes the torn-down connection's session id unchanged; only the next
welcome replaces it.  The Subscription Manager can therefore observe the
stale session id of a torn-down connection. -/
theorem sessionID_unchanged_without_welcome (c : Client) (es : List ClientEvent)
    (h : ∀ e ∈ es, isWelcome e = false) :
    GetSessionID (runClient c es) = GetSessionID c := by
  induction es generalizing c with
  | nil => rfl
  | cons e es ih =>
    have h1 : isWelcome e = false := h e (List.mem_cons_self _ _)
    have h2 : ∀ e' ∈ es, isWelcome e' = false :=
      fun e' he' => h e' (List.mem_cons_of_mem _ he')
    show GetSessionID (runClient (clientStep c e) es) = _
    rw [ih (clientStep c e) h2]
    exact clientStep_sessionID c e h1

/-- Witness for `sessionID_unchanged_without_welcome` at a concrete
teardown-heavy trace. -/
theorem sessionID_unchanged_without_welcome_witness :
    (∀ e ∈ [ClientEvent.readError, ClientEvent.keepaliveTimeout,
            ClientEvent.dial false], isWelcome e = false) ∧
    GetSessionID (runClient ⟨"sess-1", 15, "", true⟩
        [ClientEvent.readError, ClientEvent.keepaliveTimeout,
         ClientEvent.dial false])
      = GetSessionID ⟨"sess-1", 15, "", true⟩ :=
  ⟨by decide,
   sessionID_unchanged_without_welcome ⟨"sess-1", 15, "", true⟩ _ (by decide)⟩

/-- C2, counterexample: after a `session_reconnect` carrying
`wss://example.test/migrate`, the migration dial targets that URL — but so
does the dial after a later *unrelated* read error (with no intervening
reconnect frame), because `connectWithRetry` never clears `reconnectURL`.
The claim that exactly one attempt uses the URL and a later unrelated
failure reverts to the default endpoint is therefore false. -/
theorem reconnect_url_sticky_cex :
    dialTargets (runClient newClient [.welcome ⟨"s1", 10, ""⟩])
        [.reconnectFrame ⟨"s1", 10, "wss://example.test/migrate"⟩,
         .dial true, .welcome ⟨"s2", 10, ""⟩, .readError, .dial false]
      = ["wss://example.test/migrate", "wss://example.test/migrate"] ∧
    "wss://example.test/migrate" ≠ eventSubURL := by
  decide

/-- C2, amended: a `session_reconnect` frame carrying a non-empty target URL
`u` causes the next connection attempt to dial `u`, but the hint is sticky
rather than one-shot: `reconnectURL` is never cleared, so *every* later
attempt with no intervening `session_reconnect` frame — including reconnects
caused by unrelated read errors or heartbeat timeouts — also dials `u`,
never the default endpoint. -/
theorem reconnect_url_sticky (c : Client) (s : SessionMsg)
    (es : List ClientEvent) (hu : s.reconnectURL ≠ "")
    (h : ∀ e ∈ es, isReconnectFrame e = false) :
    (runClient (clientStep c (.reconnectFrame s)) es).reconnectURL
      = s.reconnectURL ∧
    ∀ t ∈ dialTargets (clientStep c (.reconnectFrame s)) es,
      t = s.reconnectURL := by
  have hstate : (clientStep c (.reconnectFrame s)).reconnectURL
      = s.reconnectURL := rfl
  constructor
  · rw [runClient_reconnectURL _ _ h, hstate]
  · intro t ht
    have := dialTargets_const _ _ h t ht
    rw [this]
    unfold dialTarget
    rw [hstate]
    simp [hu]

/-- Witness for `reconnect_url_sticky` at a concrete migration trace. -/
theorem reconnect_url_sticky_witness :
    ("wss://example.test/next" : String) ≠ "" ∧
    (∀ e ∈ [ClientEvent.dial true, ClientEvent.readError,
            ClientEvent.dial false], isReconnectFrame e = false) ∧
    (∀ t ∈ dialTargets
        (clientStep ⟨"s1", 15, "", true⟩
          (.reconnectFrame ⟨"s1", 15, "wss://example.test/next"⟩))
        [ClientEvent.dial true, ClientEvent.readError, ClientEvent.dial false],
      t = "wss://example.test/next") :=
  ⟨by decide, by decide,
   (reconnect_url_sticky ⟨"s1", 15, "", true⟩
      ⟨"s1", 15, "wss://example.test/next"⟩ _ (by decide) (by decide)).2⟩

/-! ## Claim C3: exponential backoff -/

/-- Doubling-with-cap commutes into the closed form `min (2^i * d) max`. -/
lemma min_pow_nextDelay (i d : Nat) :
    min (2 ^ i * nextDelay d) reconnectMaxDelay
      = min (2 ^ (i + 1) * d) reconnectMaxDelay := by
  have hp : 1 ≤ 2 ^ i := Nat.one_le_two_pow
  have h2 : 2 ^ (i + 1) * d = 2 ^ i * (d * 2) := by ring
  unfold nextDelay reconnectMaxDelay
  rcases Nat.le_total (d * 2) 30 with h | h
  · rw [Nat.min_eq_left h, h2]
  · rw [Nat.min_eq_right h, h2]
    have h30 : 30 ≤ 2 ^ i * 30 := Nat.le_mul_of_pos_left 30 (by omega)
    have hbig : 30 ≤ 2 ^ i * (d * 2) :=
      le_trans h (Nat.le_mul_of_pos_left _ (by omega))
    rw [Nat.min_eq_right h30, Nat.min_eq_right hbig]

/-- Closed form for the delays of an uninterrupted failure run: after the
`i`-th consecutive failure the loop sleeps `min (2^i * d) reconnectMaxDelay`
seconds, `d` being the delay the call started with. -/
lemma connectWithRetryDelays_replicate (n : Nat) :
    ∀ d : Nat, d ≤ reconnectMaxDelay →
      connectWithRetryDelays d (List.replicate n false)
        = (List.range n).map (fun i => min (2 ^ i * d) reconnectMaxDelay) := by
  induction n with
  | zero => intro d _; rfl
  | succ n ih =>
    intro d hd
    rw [List.replicate_succ]
    show d :: connectWithRetryDelays (nextDelay d) (List.replicate n false) = _
    have hnd : nextDelay d ≤ reconnectMaxDelay := Nat.min_le_right _ _
    rw [ih (nextDelay d) hnd, List.range_succ_eq_map, List.map_cons,
      List.map_map]
    congr 1
    · simp [Nat.min_eq_left hd]
    · refine List.map_congr_left fun i _ => ?_
      exact min_pow_nextDelay i d

/-- C3: for every sequence of consecutive failed open attempts, the delays
slept by `connectWithRetry` are monotonically non-decreasing, start at the
base delay (1 s), follow the doubling-with-cap closed form
`min (2^i * base) max`, and never exceed the maximum delay (30 s); and a
successful open ends the current call, so the next failure sequence —
handled by a fresh `connectWithRetry` call — starts from the base delay
again whatever delay `d` had accumulated. -/
theorem connectWithRetry_backoff_spec (n d : Nat) (es : List Bool) :
    List.Chain' (· ≤ ·)
      (connectWithRetryDelays reconnectBaseDelay (List.replicate n false)) ∧
    (∀ x ∈ connectWithRetryDelays reconnectBaseDelay (List.replicate n false),
      reconnectBaseDelay ≤ x ∧ x ≤ reconnectMaxDelay) ∧
    (0 < n →
      (connectWithRetryDelays reconnectBaseDelay
          (List.replicate n false)).head? = some reconnectBaseDelay) ∧
    connectWithRetryDelays reconnectBaseDelay (List.replicate n false)
      = (List.range n).map
          (fun i => min (2 ^ i * reconnectBaseDelay) reconnectMaxDelay) ∧
    connectWithRetryDelays d (true :: es)
      = connectWithRetryDelays reconnectBaseDelay es := by
  have hbase : reconnectBaseDelay ≤ reconnectMaxDelay := by decide
  have hcf := connectWithRetryDelays_replicate n reconnectBaseDelay hbase
  refine ⟨?_, ?_, ?_, hcf, rfl⟩
  · rw [hcf]
    rw [List.chain'_map]
    cases n with
    | zero => simp
    | succ n =>
      rw [List.chain'_range_succ]
      intro m _
      exact min_le_min
        (Nat.mul_le_mul_right _ (Nat.pow_le_pow_right (by omega) (Nat.le_succ m)))
        (le_refl _)
  · rw [hcf]
    intro x hx
    rcases List.mem_map.mp hx with ⟨i, _, rfl⟩
    refine ⟨le_min ?_ ?_, Nat.min_le_right _ _⟩
    · calc reconnectBaseDelay = 1 * reconnectBaseDelay := by ring
        _ ≤ 2 ^ i * reconnectBaseDelay :=
          Nat.mul_le_mul_right _ Nat.one_le_two_pow
    · exact hbase
  · intro hn
    rw [hcf]
    cases n with
    | zero => omega
    | succ n =>
      rw [List.range_succ_eq_map, List.map_cons]
      show some (min (2 ^ 0 * reconnectBaseDelay) reconnectMaxDelay) = _
      norm_num [reconnectBaseDelay, reconnectMaxDelay]

/-- Witness for `connectWithRetry_backoff_spec`: seven consecutive failures
from the base delay sleep 1, 2, 4, 8, 16, 30, 30 seconds; the head of the
sequence is the base delay and the member 16 is within bounds. -/
theorem connectWithRetry_backoff_spec_witness :
    (0 < 7 ∧
      (connectWithRetryDelays reconnectBaseDelay
          (List.replicate 7 false)).head? = some reconnectBaseDelay) ∧
    ((16 : Nat) ∈ connectWithRetryDelays reconnectBaseDelay
        (List.replicate 7 false) ∧
      reconnectBaseDelay ≤ 16 ∧ 16 ≤ reconnectMaxDelay) :=
  ⟨⟨by decide, (connectWithRetry_backoff_spec 7 5 [false]).2.2.1 (by decide)⟩,
   ⟨by decide, (connectWithRetry_backoff_spec 7 5 [false]).2.1 16 (by decide)⟩⟩

/-! ## Claims C4, C6 and C10: createSubscription -/

/-- A successful lookup means the key is among the stored keys. -/
lemma mem_keys_of_lookup {l : List (String × String)} {k v : String}
    (hl : l.lookup k = some v) : k ∈ l.map Prod.fst := by
  induction l with
  | nil => simp [List.lookup] at hl
  | cons p t ih =>
    by_cases hk : k = p.1
    · simp [hk]
    · rcases p with ⟨a, b⟩
      simp only [List.lookup_cons, beq_false_of_ne hk] at hl
      exact List.mem_cons_of_mem _ (ih hl)

/-- In a duplicate-free map, a tracked key occurs exactly once. -/
lemma count_key_eq_one {l : List (String × String)} {k v : String}
    (hnd : (l.map Prod.fst).Nodup) (hl : l.lookup k = some v) :
    (l.map Prod.fst).count k = 1 := by
  have hle := List.nodup_iff_count_le_one.mp hnd k
  have hmem : k ∈ l.map Prod.fst := mem_keys_of_lookup hl
  have hpos : 0 < (l.map Prod.fst).count k := List.count_pos_iff.mpr hmem
  omega

/-- When the key is not yet tracked, `createSubscription` performs exactly
one HTTP create request, whatever the response. -/
lemma createSubscription_log_of_untracked (m : SubscriptionManager) (w : World)
    (subType broadcasterID : String)
    (h : m.subscriptions.lookup (subKey subType broadcasterID) = none) :
    (createSubscription m w subType broadcasterID).2.2.log
      = w.log ++ [.httpCreate subType broadcasterID m.sessionID] ∧
    (createSubscription m w subType broadcasterID).2.2.responses
      = w.responses.tail := by
  rcases w with ⟨rs, log⟩
  cases rs with
  | nil => simp [createSubscription, doRequest, h]
  | cons r rest =>
    cases r with
    | netError msg => simp [createSubscription, doRequest, h]
    | status code body dataIDs =>
      by_cases h409 : code = 409
      · simp [createSubscription, doRequest, h, h409]
      · by_cases h202 : code = 202
        · subst h202
          cases dataIDs with
          | none => simp [createSubscription, doRequest, h, h409]
          | some ids =>
            cases ids with
            | nil => simp [createSubscription, doRequest, h, h409]
            | cons id rest' => simp [createSubscription, doRequest, h, h409]
        · simp [createSubscription, doRequest, h, h409, h202]

/-- C4: if a create for `(event_kind, entity_id)` has already succeeded and
is tracked, a second `createSubscription` for the same pair against the same
session is a no-op: it returns `nil`, issues no HTTP request (the world —
response stream and action log — is untouched), leaves the manager
unchanged, and the tracked map still contains exactly one entry for the
pair. -/
theorem createSubscription_idempotent (m : SubscriptionManager) (w : World)
    (subType broadcasterID id : String)
    (h : m.subscriptions.lookup (subKey subType broadcasterID) = some id)
    (hnd : (m.subscriptions.map Prod.fst).Nodup) :
    createSubscription m w subType broadcasterID = (.ok (), m, w) ∧
    (m.subscriptions.map Prod.fst).count (subKey subType broadcasterID) = 1 := by
  constructor
  · simp [createSubscription, h]
  · exact count_key_eq_one hnd h

/-- Witness for `createSubscription_idempotent`: a manager already tracking
`stream.online:123` ignores the duplicate request. -/
theorem createSubscription_idempotent_witness :
    ((⟨"cid", "tok", "sess", [("stream.online:123", "sub-1")]⟩ :
        SubscriptionManager).subscriptions.lookup
          (subKey "stream.online" "123") = some "sub-1") ∧
    createSubscription ⟨"cid", "tok", "sess", [("stream.online:123", "sub-1")]⟩
        ⟨[], []⟩ "stream.online" "123"
      = (.ok (), ⟨"cid", "tok", "sess", [("stream.online:123", "sub-1")]⟩,
         ⟨[], []⟩) :=
  ⟨by decide,
   (createSubscription_idempotent
      ⟨"cid", "tok", "sess", [("stream.online:123", "sub-1")]⟩ ⟨[], []⟩
      "stream.online" "123" "sub-1" (by decide) (by decide)).1⟩

/-- C6, counterexample: a create request answered with HTTP 409 returns
`nil`, but the pair is *not* considered tracked afterward — the tracked map
has no entry (with or without an id) for the pair, so the claim's "the pair
is considered tracked afterward" is false. -/
theorem conflict_not_tracked_cex :
    (createSubscription ⟨"cid", "tok", "sess", []⟩
        ⟨[.status 409 "conflict" none], []⟩ "stream.online" "123").1
      = .ok () ∧
    (createSubscription ⟨"cid", "tok", "sess", []⟩
        ⟨[.status 409 "conflict" none], []⟩ "stream.online"
        "123").2.1.subscriptions.lookup (subKey "stream.online" "123")
      = none := by
  constructor
  · rfl
  · rfl

/-- C6, amended: a create-subscription call answered with HTTP 409 is
treated as a success — no error is propagated — and identically to a 202
whose body decodes to an empty `data` array: in both cases exactly one
create request is issued, the manager (in particular its tracked map) is
left unchanged, and because the pair is *not* tracked afterward a subsequent
call for the same pair issues another create request. -/
theorem conflict_treated_as_success_untracked (m : SubscriptionManager)
    (rs : List HttpResponse) (log : List Action)
    (subType broadcasterID body : String)
    (h : m.subscriptions.lookup (subKey subType broadcasterID) = none) :
    (createSubscription m ⟨.status 409 body none :: rs, log⟩
        subType broadcasterID)
      = (.ok (), m,
         ⟨rs, log ++ [.httpCreate subType broadcasterID m.sessionID]⟩) ∧
    (createSubscription m ⟨.status 202 body (some []) :: rs, log⟩
        subType broadcasterID)
      = (.ok (), m,
         ⟨rs, log ++ [.httpCreate subType broadcasterID m.sessionID]⟩) ∧
    (createSubscription m
        ⟨rs, log ++ [.httpCreate subType broadcasterID m.sessionID]⟩
        subType broadcasterID).2.2.log
      = (log ++ [.httpCreate subType broadcasterID m.sessionID])
        ++ [.httpCreate subType broadcasterID m.sessionID] := by
  refine ⟨?_, ?_, ?_⟩
  · simp [createSubscription, doRequest, h]
  · simp [createSubscription, doRequest, h]
  · exact (createSubscription_log_of_untracked m _ _ _ h).1

/-- Witness for `conflict_treated_as_success_untracked` on a fresh
manager. -/
theorem conflict_treated_as_success_untracked_witness :
    ((⟨"cid", "tok", "sess", []⟩ : SubscriptionManager).subscriptions.lookup
        (subKey "stream.online" "123") = none) ∧
    (createSubscription ⟨"cid", "tok", "sess", []⟩
        ⟨[.status 409 "conflict" none], []⟩ "stream.online" "123")
      = (.ok (), ⟨"cid", "tok", "sess", []⟩,
         ⟨[], [.httpCreate "stream.online" "123" "sess"]⟩) :=
  ⟨by decide,
   (conflict_treated_as_success_untracked ⟨"cid", "tok", "sess", []⟩ []
      [] "stream.online" "123" "conflict" (by decide)).1⟩

/-- C10: a create-subscription call answered with HTTP 202 whose decoded
body has an empty `data` array returns success but tracks nothing, so a
subsequent call for the same pair is not a no-op: it issues another create
request (the log grows by a second `httpCreate`). -/
theorem accepted_empty_data_not_tracked (m : SubscriptionManager)
    (rs : List HttpResponse) (log : List Action)
    (subType broadcasterID body : String)
    (h : m.subscriptions.lookup (subKey subType broadcasterID) = none) :
    (createSubscription m ⟨.status 202 body (some []) :: rs, log⟩
        subType broadcasterID).1 = .ok () ∧
    (createSubscription m ⟨.status 202 body (some []) :: rs, log⟩
        subType broadcasterID).2.1 = m ∧
    ((createSubscription
        ((createSubscription m ⟨.status 202 body (some []) :: rs, log⟩
            subType broadcasterID).2.1)
        ((createSubscription m ⟨.status 202 body (some []) :: rs, log⟩
            subType broadcasterID).2.2)
        subType broadcasterID).2.2.log).length
      = log.length + 2 := by
  have h1 : (createSubscription m ⟨.status 202 body (some []) :: rs, log⟩
      subType broadcasterID)
      = (.ok (), m,
         ⟨rs, log ++ [.httpCreate subType broadcasterID m.sessionID]⟩) := by
    simp [createSubscription, doRequest, h]
  refine ⟨by rw [h1], by rw [h1], ?_⟩
  rw [h1]
  rw [(createSubscription_log_of_untracked m _ _ _ h).1]
  simp

/-- Witness for `accepted_empty_data_not_tracked` on a fresh manager. -/
theorem accepted_empty_data_not_tracked_witness :
    ((⟨"cid", "tok", "sess", []⟩ : SubscriptionManager).subscriptions.lookup
        (subKey "stream.online" "123") = none) ∧
    (createSubscription ⟨"cid", "tok", "sess", []⟩
        ⟨[.status 202 "{}" (some [])], []⟩ "stream.online" "123").1
      = .ok () :=
  ⟨by decide,
   (accepted_empty_data_not_tracked ⟨"cid", "tok", "sess", []⟩
      [] [] "stream.online" "123" "{}" (by decide)).1⟩

/-! ## Claim C7: operations without a session -/

/-- With no session id set, a bulk subscribe touches neither the manager nor
the response stream; it only appends one warning per entity to the log and
returns `nil`. -/
lemma subscribeToChannels_no_session (ids : List String) :
    ∀ (m : SubscriptionManager) (w : World), m.sessionID = "" →
      SubscribeToChannels m w ids
        = (.ok (), m,
           ⟨w.responses,
            w.log ++ ids.map (fun id => .warn id
              ("failed to subscribe to channel " ++ id ++ ": "
                ++ "session ID not set"))⟩) := by
  induction ids with
  | nil => intro m w h; simp [SubscribeToChannels]
  | cons id rest ih =>
    intro m w h
    rw [SubscribeToChannels]
    have hfirst : SubscribeToChannel m w id = (.error "session ID not set", m, w) := by
      simp [SubscribeToChannel, h]
    rw [hfirst]
    show SubscribeToChannels m
        ⟨w.responses, w.log ++ [.warn id
          ("failed to subscribe to channel " ++ id ++ ": "
            ++ "session ID not set")]⟩ rest = _
    rw [ih m _ h]
    simp [List.append_assoc]

/-- C7: every `ensure`/subscribe call made while no session is active is
rejected with the missing-session error before any create request is issued
(manager and world untouched); a bulk subscribe over a list of entities
reports the failure per-entity as a warning, still succeeds overall,
consumes no HTTP response, and adds no `reconnect` action — it never
triggers a transport reconnect. -/
theorem subscribe_rejected_without_session (m : SubscriptionManager)
    (w : World) (broadcasterID : String) (ids : List String)
    (h : m.sessionID = "") :
    SubscribeToChannel m w broadcasterID
      = (.error "session ID not set", m, w) ∧
    (SubscribeToChannels m w ids).1 = .ok () ∧
    (SubscribeToChannels m w ids).2.1 = m ∧
    (SubscribeToChannels m w ids).2.2.responses = w.responses ∧
    (SubscribeToChannels m w ids).2.2.log
      = w.log ++ ids.map (fun id => .warn id
          ("failed to subscribe to channel " ++ id ++ ": "
            ++ "session ID not set")) ∧
    (SubscribeToChannels m w ids).2.2.log.count Action.reconnect
      = w.log.count Action.reconnect := by
  have hbulk := subscribeToChannels_no_session ids m w h
  refine ⟨by simp [SubscribeToChannel, h], by rw [hbulk], by rw [hbulk],
    by rw [hbulk], by rw [hbulk], ?_⟩
  rw [hbulk]
  show (w.log ++ _).count _ = _
  rw [List.count_append]
  have : (ids.map (fun id => Action.warn id
      ("failed to subscribe to channel " ++ id ++ ": "
        ++ "session ID not set"))).count Action.reconnect = 0 := by
    rw [List.count_eq_zero]
    intro hmem
    rcases List.mem_map.mp hmem with ⟨i, _, hic⟩
    exact Action.noConfusion hic
  omega

/-- Witness for `subscribe_rejected_without_session` on a fresh manager and
a two-entity batch. -/
theorem subscribe_rejected_without_session_witness :
    ((NewSubscriptionManager "cid" "tok").sessionID = "") ∧
    SubscribeToChannel (NewSubscriptionManager "cid" "tok") ⟨[], []⟩ "111"
      = (.error "session ID not set", NewSubscriptionManager "cid" "tok",
         ⟨[], []⟩) ∧
    (SubscribeToChannels (NewSubscriptionManager "cid" "tok") ⟨[], []⟩
        ["111", "222"]).1 = .ok () :=
  ⟨by decide,
   (subscribe_rejected_without_session (NewSubscriptionManager "cid" "tok")
      ⟨[], []⟩ "111" ["111", "222"] (by decide)).1,
   (subscribe_rejected_without_session (NewSubscriptionManager "cid" "tok")
      ⟨[], []⟩ "111" ["111", "222"] (by decide)).2.1⟩

/-! ## Claim C8: clear always empties the tracked map -/

/-- `clearLoop` only ever filters the tracked map; the deletions' outcomes
are irrelevant to it. -/
lemma clearLoop_subscriptions (l : List (String × String)) :
    ∀ (m : SubscriptionManager) (w : World),
      (clearLoop l m w).1.subscriptions
        = l.foldl (fun s kv => s.filter (fun p => p.1 ≠ kv.1))
            m.subscriptions := by
  induction l with
  | nil => intro m w; rfl
  | cons kv rest ih =>
    intro m w
    rcases kv with ⟨key, id⟩
    rw [clearLoop, List.foldl_cons]
    exact ih _ _

/-- Successively filtering out every key of `l` empties any map whose keys
all come from `l`. -/
lemma foldl_filter_own_keys (l : List (String × String)) :
    ∀ s : List (String × String), (∀ p ∈ s, p.1 ∈ l.map Prod.fst) →
      l.foldl (fun s kv => s.filter (fun p => p.1 ≠ kv.1)) s = [] := by
  induction l with
  | nil =>
    intro s hs
    cases s with
    | nil => rfl
    | cons p t => exact absurd (hs p (List.mem_cons_self _ _)) (by simp)
  | cons kv rest ih =>
    intro s hs
    rw [List.foldl_cons]
    apply ih
    intro p hp
    have hp' : p ∈ s := List.mem_of_mem_filter hp
    have hne : p.1 ≠ kv.1 := by
      have := List.of_mem_filter hp
      simpa using this
    have hmem := hs p hp'
    rw [List.map_cons, List.mem_cons] at hmem
    rcases hmem with hk | hk
    · exact absurd hk hne
    · exact hk

/-- C8: whatever the tracked map and whatever the outcomes of the individual
delete calls (the oracle may answer every delete with a failure), after
`ClearSubscriptions` the tracked-registration map is empty.  The Go function
has no return value, so no error from the individual deletions can be
propagated. -/
theorem clearSubscriptions_empties_map (m : SubscriptionManager) (w : World) :
    (ClearSubscriptions m w).1.subscriptions = [] := by
  unfold ClearSubscriptions
  rw [clearLoop_subscriptions]
  exact foldl_filter_own_keys m.subscriptions m.subscriptions
    (fun p hp => List.mem_map_of_mem _ hp)

/-! ## Claim C9: a panicking handler stops dispatch -/

/-- C9, counterexample: with handlers `[panics, ok]`, the handler at
position 0 panics; the handler at position 1 is *not* invoked and the read
loop crashes, refuting the claim that callbacks after a panicking one are
still invoked and the read loop survives. -/
theorem panic_stops_dispatch_cex :
    handleNotification [.panics, .ok] = ([0], true) ∧
    1 ∉ (handleNotification [.panics, .ok]).1 := by
  decide

/-- C9, amended: if the callback at position `i` panics (all callbacks
before it returning normally), the callbacks at positions 0 through `i` are
invoked and then dispatch stops: no callback after position `i` is invoked,
and the panic propagates out of the dispatch loop — there is no `recover` in
the package — crashing the read loop. -/
theorem panic_stops_dispatch (pre post : List HandlerBehavior)
    (h : ∀ b ∈ pre, b = .ok) :
    handleNotification (pre ++ .panics :: post)
      = (List.range (pre.length + 1), true) := by
  have main : ∀ (pre : List HandlerBehavior) (i : Nat),
      (∀ b ∈ pre, b = .ok) →
      dispatchFrom i (pre ++ .panics :: post)
        = (List.range' i (pre.length + 1), true) := by
    intro pre
    induction pre with
    | nil =>
      intro i _
      rw [List.nil_append]
      rfl
    | cons b rest ih =>
      intro i hb
      have hbok : b = .ok := hb b (List.mem_cons_self _ _)
      subst hbok
      rw [List.cons_append, dispatchFrom,
        ih (i + 1) (fun b' hb' => hb b' (List.mem_cons_of_mem _ hb'))]
      rfl
  rw [handleNotification, main pre 0 h, List.range_eq_range']

/-- Witness for `panic_stops_dispatch`: one well-behaved handler before the
panicking one, one after. -/
theorem panic_stops_dispatch_witness :
    (∀ b ∈ [HandlerBehavior.ok], b = HandlerBehavior.ok) ∧
    handleNotification ([HandlerBehavior.ok] ++ .panics :: [.ok])
      = (List.range 2, true) :=
  ⟨by decide, panic_stops_dispatch [.ok] [.ok] (by decide)⟩

/-! ## Claim C5: Close does not wait for the retry goroutine -/

/-- C5: the claim fails on the code.  Schedule: the retry goroutine (spawned
by `handleDisconnect` after a read error) passes the context check and is
about to dial; `Close` cancels the context; the leftover monitor observes
the cancellation and exits, dropping the WaitGroup counter to zero;
`c.wg.Wait()` — which tracks only the reader and monitor goroutines, never
the retry goroutine — returns and `Close` returns while the retry loop is
still running (`retryPC = dialStep`); the pending dial then succeeds and
opens a fresh connection (spawning a new reader/monitor pair) after `Close`
has returned. -/
theorem close_returns_before_retry_exits :
    ((runConc afterReadError
        [.retryStep false, .closeCancel, .monitorStep, .closeWait]).closeReturned
      = true) ∧
    ((runConc afterReadError
        [.retryStep false, .closeCancel, .monitorStep, .closeWait]).retryPC
      = RetryPC.dialStep) ∧
    ((runConc afterReadError
        [.retryStep false, .closeCancel, .monitorStep, .closeWait,
         .retryStep true]).opensAfterClose = 1) := by
  decide

end TwitchTray
